import Mathlib

/-!
# Virtual Closet — outfit-matching engine, shallow embedding

A shallow embedding of the outfit-matching core of `src/App.tsx`
(`nameNearestColor`, `buildRules`, `isColorFriendly`, `mixAndMatch`) and
proofs of the specification claims about it.

Modelling conventions:
* A color is an RGB triple (`Rgb`), the value `hexToRgb` produces from a
  garment's `colorHex` string.  All palette keys are translated to their
  RGB triples.
* The source computes `colorDistance = Math.sqrt(Δr² + Δg² + Δb²)` and only
  ever *compares* it (`d < bestD`, `> 80`, `> 90`, `> 60`).  Since the square
  root is strictly monotone on nonnegative reals, every comparison is modelled
  exactly by the squared distance `colorDist2` compared against the squared
  threshold (`6400`, `8100`, `3600`).  (The squared channel differences are
  integers below 2^18, so the JavaScript doubles involved are exact, and
  correctly rounded square roots of distinct integers in this range are
  distinct; the translation loses nothing.)
* `find` on arrays is `List.find?`; `slice(0, n)` is `List.take n`;
  conditional `push` into an accumulator array is `List.filterMap` /
  `List.filter`; the `seen : Set<string>` deduplication loop is the explicit
  recursion `dedupByKey` carrying the list of seen keys.
* JavaScript's default `Array.sort()` on the (ASCII) id strings is
  `List.insertionSort (· ≤ ·)` with Lean's lexicographic order on `String`.
-/

/-- Garment type enumeration (`GarmentType` in the source). -/
inductive GarmentType where
  | top | bottom | dress | outerwear | shoes | accessory
deriving DecidableEq

/-- Fit-goal enumeration (`FitGoal` in the source). -/
inductive FitGoal where
  | elongate | balance | accentuateShoulders | accentuateWaist | minimizeHips | relaxed
deriving DecidableEq

/-- Body-type enumeration (the `bodyType` field's literal union). -/
inductive BodyType where
  | rectangle | triangle | invertedTriangle | hourglass | oval
deriving DecidableEq

/-- Skin-undertone enumeration (the `skinUndertone` field's literal union). -/
inductive Undertone where
  | cool | warm | neutral
deriving DecidableEq

/-- An RGB triple, the result of `hexToRgb` on a hex color string. -/
structure Rgb where
  r : Nat
  g : Nat
  b : Nat
deriving DecidableEq

/-- A wardrobe item (`Garment` in the source).  `color` is the RGB value of
the source's `colorHex`; the image payload is irrelevant to matching and is
omitted.  `colorName` is the stored (user-editable) color-name field. -/
structure Garment where
  id : String
  name : String
  type : GarmentType
  color : Rgb
  colorName : String
  tags : List String
deriving DecidableEq

/-- The user profile (`CustomerProfile` in the source); fields the engine
never reads (`name`, `heightCm`, `avoidNotes`) are kept where cheap and
dropped where irrelevant.  Optional fields are `Option`s, matching the `?`
fields of the source interface. -/
structure CustomerProfile where
  bodyType : Option BodyType := none
  skinUndertone : Option Undertone := none
  preferredStyles : List String := []
  favoriteColors : Option (List String) := none
  dislikedColors : Option (List String) := none

/-- A candidate outfit: ordered items plus rationale strings, as pushed onto
`combos` in `mixAndMatch`. -/
structure Outfit where
  items : List Garment
  rationale : List String
deriving DecidableEq

/-- Squared Euclidean color distance (`colorDistance` in the source returns
its square root; see the header comment — all uses are comparisons, modelled
exactly on the squares). -/
def colorDist2 (a b : Rgb) : Nat :=
  Nat.dist a.r b.r ^ 2 + Nat.dist a.g b.g ^ 2 + Nat.dist a.b b.b ^ 2

/-- The fixed named-color palette `NAMED_COLORS`, in its source order
(object-literal insertion order, which `Object.keys` preserves), with hex
keys converted to RGB triples. -/
def NAMED_COLORS : List (Rgb × String) :=
  [ (⟨0, 0, 0⟩, "black"), (⟨34, 34, 34⟩, "charcoal"), (⟨68, 68, 68⟩, "graphite"),
    (⟨102, 102, 102⟩, "slate"), (⟨136, 136, 136⟩, "gray"),
    (⟨255, 255, 255⟩, "white"), (⟨242, 242, 242⟩, "off white"),
    (⟨192, 57, 43⟩, "red"), (⟨211, 84, 0⟩, "orange"), (⟨243, 156, 18⟩, "amber"),
    (⟨39, 174, 96⟩, "green"), (⟨22, 160, 133⟩, "teal"),
    (⟨41, 128, 185⟩, "blue"), (⟨142, 68, 173⟩, "purple"),
    (⟨230, 126, 34⟩, "rust"), (⟨184, 115, 51⟩, "copper"), (⟨160, 82, 45⟩, "brown") ]

/-- The loop body of `nameNearestColor`: scan the remaining palette keeping
the best (name, squared distance) pair, updating only on strictly smaller
distance (`if (d < bestD)`). -/
def pickNearest (hex : Rgb) : List (Rgb × String) → String × Nat → String × Nat
  | [], best => best
  | (k, n) :: rest, (bn, bd) =>
    let d := colorDist2 hex k
    if d < bd then pickNearest hex rest (n, d) else pickNearest hex rest (bn, bd)

/-- `nameNearestColor` from the source.  The source starts with
`best = NAMED_KEYS[0], bestD = Infinity`, so the first iteration always
installs the first palette entry; we model that by seeding the scan of the
tail with the head entry.  (The final map lookup `NAMED_COLORS[best]` is
fused into carrying the name alongside the key.) -/
def nameNearestColor (hex : Rgb) : String :=
  match NAMED_COLORS with
  | [] => ""
  | (k, n) :: rest => (pickNearest hex rest (n, colorDist2 hex k)).1

/-- `buildRules` from the source: sequential conditional pushes keyed on the
(single) `bodyType` value, modelled as concatenation of the matching blocks. -/
def buildRules (profile : CustomerProfile) : List FitGoal :=
  (if profile.bodyType = some BodyType.rectangle then [FitGoal.accentuateWaist] else []) ++
  (if profile.bodyType = some BodyType.triangle then
    [FitGoal.accentuateShoulders, FitGoal.elongate] else []) ++
  (if profile.bodyType = some BodyType.invertedTriangle then
    [FitGoal.minimizeHips, FitGoal.balance] else []) ++
  (if profile.bodyType = some BodyType.hourglass then [FitGoal.accentuateWaist] else []) ++
  (if profile.bodyType = some BodyType.oval then [FitGoal.elongate, FitGoal.relaxed] else [])

/-- The cool-undertone friendly color names (`coolFriendly` in the source). -/
def coolFriendly : List String := ["blue", "purple", "charcoal", "graphite", "white", "teal"]

/-- The warm-undertone friendly color names (`warmFriendly` in the source). -/
def warmFriendly : List String := ["rust", "amber", "copper", "brown", "green", "off white"]

/-- `isColorFriendly` from the source: undefined undertone passes everything;
otherwise the nearest color name is tested against the undertone's friendly
set (`neutral` passes everything). -/
def isColorFriendly (hex : Rgb) (profile : CustomerProfile) : Bool :=
  match profile.skinUndertone with
  | none => true
  | some Undertone.cool => decide (nameNearestColor hex ∈ coolFriendly)
  | some Undertone.warm => decide (nameNearestColor hex ∈ warmFriendly)
  | some Undertone.neutral => true

/-- The by-type wardrobe partitions (`garments.filter(g => g.type === …)`). -/
def topsOf (w : List Garment) : List Garment :=
  w.filter fun g => decide (g.type = GarmentType.top)

/-- Bottoms partition of the wardrobe. -/
def bottomsOf (w : List Garment) : List Garment :=
  w.filter fun g => decide (g.type = GarmentType.bottom)

/-- Dresses partition of the wardrobe. -/
def dressesOf (w : List Garment) : List Garment :=
  w.filter fun g => decide (g.type = GarmentType.dress)

/-- Outerwear partition of the wardrobe. -/
def outersOf (w : List Garment) : List Garment :=
  w.filter fun g => decide (g.type = GarmentType.outerwear)

/-- Shoes partition of the wardrobe. -/
def shoesOf (w : List Garment) : List Garment :=
  w.filter fun g => decide (g.type = GarmentType.shoes)

/-- Accessories partition of the wardrobe (computed but unused by the source
matcher, kept for fidelity). -/
def accessoriesOf (w : List Garment) : List Garment :=
  w.filter fun g => decide (g.type = GarmentType.accessory)

/-- The body of the dress-anchored loop (Strategy A) of `mixAndMatch`: for a
dress `d`, the first sufficiently-contrasting outerwear (squared threshold
`90² = 8100`) is optional layering; the first sufficiently-contrasting shoe
(`60² = 3600`) is mandatory — without one, no outfit is pushed. -/
def dressOutfit (outers shoes : List Garment) (d : Garment) : Option Outfit :=
  let layer := outers.find? fun o => decide (colorDist2 o.color d.color > 8100)
  let shoe := shoes.find? fun s => decide (colorDist2 s.color d.color > 3600)
  match shoe with
  | none => none
  | some shoe =>
    let dn := nameNearestColor d.color
    let rationale := [
      "Dress as one-and-done base",
      (match layer with
       | some l =>
         let ln := nameNearestColor l.color
         s!"Layer adds structure ({ln} vs {dn})"
       | none => "Minimal layering to elongate line"),
      "Shoes chosen for contrast"]
    some ⟨d :: (layer.toList ++ [shoe]), rationale⟩

/-- The body of the top-anchored loop (Strategy B) of `mixAndMatch`: the
first bottom with squared distance `> 80² = 6400` from the top is mandatory;
outerwear (`> 8100` from the top) and a shoe (`> 3600` from the *bottom*)
are optional. -/
def topOutfit (bottoms outers shoes : List Garment) (rules : List FitGoal)
    (t : Garment) : Option Outfit :=
  match bottoms.find? fun b => decide (colorDist2 b.color t.color > 6400) with
  | none => none
  | some bottom =>
    let layer := outers.find? fun o => decide (colorDist2 o.color t.color > 8100)
    let shoe := shoes.find? fun s => decide (colorDist2 s.color bottom.color > 3600)
    let tn := nameNearestColor t.color
    let bn := nameNearestColor bottom.color
    let rationale := [s!"Top ({tn}) with {bn} bottom for contrast"] ++
      (if FitGoal.accentuateWaist ∈ rules then ["Tuck or belt to define waistline"] else []) ++
      (if FitGoal.elongate ∈ rules then
        ["Monochromatic column from top to shoe to elongate silhouette"] else []) ++
      (if FitGoal.accentuateShoulders ∈ rules then
        ["Structured shoulder or boat-neck to broaden upper body"] else [])
    some ⟨t :: bottom :: (layer.toList ++ shoe.toList), rationale⟩

/-- Strategy A of `mixAndMatch`: `dresses.slice(0,6).forEach(…)` with a
conditional push, i.e. `filterMap` of `dressOutfit` over the first 6 dresses. -/
def strategyA (w : List Garment) : List Outfit :=
  ((dressesOf w).take 6).filterMap (dressOutfit (outersOf w) (shoesOf w))

/-- Strategy B of `mixAndMatch`: `tops.slice(0,8).forEach(…)` with a
conditional push, i.e. `filterMap` of `topOutfit` over the first 8 tops. -/
def strategyB (w : List Garment) (p : CustomerProfile) : List Outfit :=
  ((topsOf w).take 8).filterMap
    (topOutfit (bottomsOf w) (outersOf w) (shoesOf w) (buildRules p))

/-- The per-item acceptability test of the post-generation filter in
`mixAndMatch` (lines 188–192): not disliked; in the favorites list when that
list is present and non-empty; undertone-friendly.  Absent (`undefined`)
`dislikedColors`/`favoriteColors` impose no constraint. -/
def itemAcceptable (p : CustomerProfile) (g : Garment) : Bool :=
  (match p.dislikedColors with
   | none => true
   | some dc => !decide (nameNearestColor g.color ∈ dc)) &&
  (match p.favoriteColors with
   | none => true
   | some fc => decide (fc = []) || decide (nameNearestColor g.color ∈ fc)) &&
  isColorFriendly g.color p

/-- Outfit acceptability: `c.items.every(…)` over `itemAcceptable`. -/
def acceptableOutfit (p : CustomerProfile) (c : Outfit) : Bool :=
  c.items.all (itemAcceptable p)

/-- The dedup key of an outfit: `items.map(i=>i.id).sort().join('-')`. -/
def outfitKey (o : Outfit) : String :=
  String.intercalate "-" (List.insertionSort (· ≤ ·) (o.items.map fun g => g.id))

/-- The deduplication loop of `mixAndMatch`: keep an outfit iff its key has
not been seen, recording seen keys. -/
def dedupByKey : List Outfit → List String → List Outfit
  | [], _ => []
  | c :: rest, seen =>
    if outfitKey c ∈ seen then dedupByKey rest seen
    else c :: dedupByKey rest (outfitKey c :: seen)

/-- `mixAndMatch` from the source: concatenate Strategy A and Strategy B
candidates (in that order), filter by acceptability, deduplicate by item-id
key keeping first occurrences, and truncate to 12. -/
def mixAndMatch (w : List Garment) (p : CustomerProfile) : List Outfit :=
  let combos := strategyA w ++ strategyB w p
  let filtered := combos.filter (acceptableOutfit p)
  (dedupByKey filtered []).take 12

/-- The id-set of an outfit, the identity used by the dedup invariant. -/
def idSet (o : Outfit) : Finset String :=
  (o.items.map fun g => g.id).toFinset

/-- "`x` is the first element of `l` satisfying `q`": the list splits around
`x`, `x` satisfies `q`, and everything before `x` fails `q`.  This is the
semantics of JavaScript's `Array.find` (and of `List.find?`). -/
def FirstSuch (l : List α) (q : α → Prop) (x : α) : Prop :=
  ∃ l₁ l₂, l = l₁ ++ x :: l₂ ∧ q x ∧ ∀ y ∈ l₁, ¬ q y

/-- Erase the (engine-irrelevant) stored color-name field of a garment;
two garments agree on everything except `colorName` iff `stripColorName`
maps them to the same value. -/
def stripColorName (g : Garment) : Garment :=
  { g with colorName := "" }

/-- The observable output of an outfit for the noninterference claim: the
item ids in order, and the rationale strings. -/
def observe (o : Outfit) : List String × List String :=
  (o.items.map fun g => g.id, o.rationale)

-- Sanity checks (spec Scenario 1 and Scenario 2 shapes).
example : nameNearestColor ⟨17, 17, 17⟩ = "black" := by decide
example : nameNearestColor ⟨255, 255, 255⟩ = "white" := by decide

/-! ## Basic structural lemmas -/

/-- The deduplication loop only drops elements: its output is a sublist of
its input (so order of survivors is preserved). -/
theorem dedupByKey_sublist : ∀ (l : List Outfit) (seen : List String),
    List.Sublist (dedupByKey l seen) l := by
  intro l
  induction l with
  | nil => intro seen; simp [dedupByKey]
  | cons c rest ih =>
    intro seen
    unfold dedupByKey
    by_cases h : outfitKey c ∈ seen
    · simpa [h] using (ih seen).cons c
    · simpa [h] using (ih (outfitKey c :: seen)).cons₂ c

/-- Any member of the composer's output is a generated candidate that passed
the acceptability filter. -/
theorem mem_mixAndMatch {w : List Garment} {p : CustomerProfile} {o : Outfit}
    (h : o ∈ mixAndMatch w p) :
    o ∈ strategyA w ++ strategyB w p ∧ acceptableOutfit p o = true := by
  simp only [mixAndMatch] at h
  have h1 := List.mem_of_mem_take h
  have h2 := List.Sublist.mem h1 (dedupByKey_sublist _ _)
  exact List.mem_filter.1 h2

/-- Strategy A produces nothing when no dress has a contrasting shoe. -/
theorem dressOutfit_eq_none {outers shoes : List Garment} {d : Garment}
    (h : ∀ s ∈ shoes, ¬ colorDist2 s.color d.color > 3600) :
    dressOutfit outers shoes d = none := by
  have hf : shoes.find? (fun s => decide (colorDist2 s.color d.color > 3600)) = none := by
    rw [List.find?_eq_none]
    intro s hs
    simpa using h s hs
  simp [dressOutfit, hf]

/-- Strategy B produces nothing for a top with no contrasting bottom. -/
theorem topOutfit_eq_none {bottoms outers shoes : List Garment} {rules : List FitGoal}
    {t : Garment} (h : ∀ b ∈ bottoms, ¬ colorDist2 b.color t.color > 6400) :
    topOutfit bottoms outers shoes rules t = none := by
  have hf : bottoms.find? (fun b => decide (colorDist2 b.color t.color > 6400)) = none := by
    rw [List.find?_eq_none]
    intro b hb
    simpa using h b hb
  simp [topOutfit, hf]

/-- A wardrobe in which no dress has a qualifying shoe and no top has a
qualifying bottom yields no candidates at all. -/
theorem mixAndMatch_eq_nil {w : List Garment} {p : CustomerProfile}
    (hA : ∀ d ∈ dressesOf w, ∀ s ∈ shoesOf w, ¬ colorDist2 s.color d.color > 3600)
    (hB : ∀ t ∈ topsOf w, ∀ b ∈ bottomsOf w, ¬ colorDist2 b.color t.color > 6400) :
    mixAndMatch w p = [] := by
  have ha : strategyA w = [] := by
    unfold strategyA
    rw [List.filterMap_eq_nil_iff]
    intro d hd
    exact dressOutfit_eq_none (hA d (List.mem_of_mem_take hd))
  have hb : strategyB w p = [] := by
    unfold strategyB
    rw [List.filterMap_eq_nil_iff]
    intro t ht
    exact topOutfit_eq_none (hB t (List.mem_of_mem_take ht))
  simp [mixAndMatch, ha, hb, dedupByKey]

/-- Claim C2: the result of `compose` (`mixAndMatch`) has length at most 12. -/
theorem compose_length_le_twelve (w : List Garment) (p : CustomerProfile) :
    (mixAndMatch w p).length ≤ 12 := by
  simp only [mixAndMatch]
  exact List.length_take_le 12 _

/-- Claim C8: `compose` is total (a Lean function) and returns the empty list — not
an error — on an empty wardrobe and on any wardrobe in which no dress has a
qualifying shoe and no top has a qualifying bottom. -/
theorem compose_empty_on_no_pairing (w : List Garment) (p : CustomerProfile)
    (hA : ∀ d ∈ dressesOf w, ∀ s ∈ shoesOf w, ¬ colorDist2 s.color d.color > 3600)
    (hB : ∀ t ∈ topsOf w, ∀ b ∈ bottomsOf w, ¬ colorDist2 b.color t.color > 6400) :
    mixAndMatch w p = [] ∧ ∀ p' : CustomerProfile, mixAndMatch [] p' = [] := by
  refine ⟨mixAndMatch_eq_nil hA hB, fun p' => ?_⟩
  rfl

/-- Claim C6: a dress with no contrasting shoe yields no outfit, and in
particular a wardrobe consisting of a single dress (hence no shoes, no
tops) makes `compose` return the empty list. -/
theorem dress_without_shoe_discarded (w : List Garment) (p : CustomerProfile)
    (d : Garment) (hd : d ∈ (dressesOf w).take 6)
    (hsh : ∀ s ∈ shoesOf w, ¬ colorDist2 s.color d.color > 3600) :
    dressOutfit (outersOf w) (shoesOf w) d = none ∧
    ∀ (d' : Garment) (p' : CustomerProfile), d'.type = GarmentType.dress →
      mixAndMatch [d'] p' = [] := by
  refine ⟨dressOutfit_eq_none hsh, fun d' p' ht => ?_⟩
  have hshoes : shoesOf [d'] = [] := by
    simp [shoesOf, List.filter, ht]
  have htops : topsOf [d'] = [] := by
    simp [topsOf, List.filter, ht]
  apply mixAndMatch_eq_nil
  · intro a _ s hs
    rw [hshoes] at hs
    simp at hs
  · intro t htm
    rw [htops] at htm
    simp at htm

/-! ## Partition and shape lemmas -/

/-- Membership in the tops partition. -/
theorem mem_topsOf {w : List Garment} {g : Garment} :
    g ∈ topsOf w ↔ g ∈ w ∧ g.type = GarmentType.top := by
  simp [topsOf, List.mem_filter]

/-- Membership in the bottoms partition. -/
theorem mem_bottomsOf {w : List Garment} {g : Garment} :
    g ∈ bottomsOf w ↔ g ∈ w ∧ g.type = GarmentType.bottom := by
  simp [bottomsOf, List.mem_filter]

/-- Membership in the dresses partition. -/
theorem mem_dressesOf {w : List Garment} {g : Garment} :
    g ∈ dressesOf w ↔ g ∈ w ∧ g.type = GarmentType.dress := by
  simp [dressesOf, List.mem_filter]

/-- Membership in the outerwear partition. -/
theorem mem_outersOf {w : List Garment} {g : Garment} :
    g ∈ outersOf w ↔ g ∈ w ∧ g.type = GarmentType.outerwear := by
  simp [outersOf, List.mem_filter]

/-- Membership in the shoes partition. -/
theorem mem_shoesOf {w : List Garment} {g : Garment} :
    g ∈ shoesOf w ↔ g ∈ w ∧ g.type = GarmentType.shoes := by
  simp [shoesOf, List.mem_filter]

/-- Every Strategy A outfit is `[dress, outerwear?, shoe]` with parts drawn
from the corresponding wardrobe partitions. -/
theorem strategyA_shape {w : List Garment} {o : Outfit} (h : o ∈ strategyA w) :
    ∃ d lay sh, o.items = d :: (lay ++ [sh]) ∧ d ∈ dressesOf w ∧ sh ∈ shoesOf w ∧
      (lay = [] ∨ ∃ l, lay = [l] ∧ l ∈ outersOf w) := by
  unfold strategyA at h
  rcases List.mem_filterMap.1 h with ⟨d, hd, he⟩
  have hd' : d ∈ dressesOf w := List.mem_of_mem_take hd
  simp only [dressOutfit] at he
  rcases hfs : (shoesOf w).find? (fun s => decide (colorDist2 s.color d.color > 3600)) with
    _ | sh
  · rw [hfs] at he; simp at he
  · rw [hfs] at he
    have hsh : sh ∈ shoesOf w := List.mem_of_find?_eq_some hfs
    rcases hfl : (outersOf w).find? (fun x => decide (colorDist2 x.color d.color > 8100)) with
      _ | l
    · rw [hfl] at he
      simp only [Option.toList_none, Option.some.injEq] at he
      exact ⟨d, [], sh, by rw [← he], hd', hsh, Or.inl rfl⟩
    · rw [hfl] at he
      have hl : l ∈ outersOf w := List.mem_of_find?_eq_some hfl
      simp only [Option.toList_some, Option.some.injEq] at he
      exact ⟨d, [l], sh, by rw [← he], hd', hsh, Or.inr ⟨l, rfl, hl⟩⟩

/-- Every Strategy B outfit is `[top, bottom, outerwear?, shoe?]` with parts
drawn from the corresponding wardrobe partitions. -/
theorem strategyB_shape {w : List Garment} {p : CustomerProfile} {o : Outfit}
    (h : o ∈ strategyB w p) :
    ∃ t b lay sho, o.items = t :: b :: (lay ++ sho) ∧ t ∈ topsOf w ∧ b ∈ bottomsOf w ∧
      (lay = [] ∨ ∃ l, lay = [l] ∧ l ∈ outersOf w) ∧
      (sho = [] ∨ ∃ s, sho = [s] ∧ s ∈ shoesOf w) := by
  unfold strategyB at h
  rcases List.mem_filterMap.1 h with ⟨t, ht, he⟩
  have ht' : t ∈ topsOf w := List.mem_of_mem_take ht
  simp only [topOutfit] at he
  rcases hfb : (bottomsOf w).find? (fun b => decide (colorDist2 b.color t.color > 6400)) with
    _ | b
  · rw [hfb] at he; simp at he
  · rw [hfb] at he
    have hb : b ∈ bottomsOf w := List.mem_of_find?_eq_some hfb
    simp only [Option.some.injEq] at he
    refine ⟨t, b,
      ((outersOf w).find? fun x => decide (colorDist2 x.color t.color > 8100)).toList,
      ((shoesOf w).find? fun s => decide (colorDist2 s.color b.color > 3600)).toList,
      by rw [← he], ht', hb, ?_, ?_⟩
    · rcases hfl : (outersOf w).find? (fun x => decide (colorDist2 x.color t.color > 8100)) with
        _ | l
      · exact Or.inl (by rw [hfl]; rfl)
      · exact Or.inr ⟨l, by rw [hfl]; rfl, List.mem_of_find?_eq_some hfl⟩
    · rcases hfs : (shoesOf w).find? (fun s => decide (colorDist2 s.color b.color > 3600)) with
        _ | s
      · exact Or.inl (by rw [hfs]; rfl)
      · exact Or.inr ⟨s, by rw [hfs]; rfl, List.mem_of_find?_eq_some hfs⟩

/-- Unpacking of the per-item acceptability test. -/
theorem itemAcceptable_spec {p : CustomerProfile} {g : Garment}
    (h : itemAcceptable p g = true) :
    (∀ dc, p.dislikedColors = some dc → nameNearestColor g.color ∉ dc) ∧
    (∀ fc, p.favoriteColors = some fc → fc ≠ [] → nameNearestColor g.color ∈ fc) ∧
    isColorFriendly g.color p = true := by
  unfold itemAcceptable at h
  rw [Bool.and_eq_true, Bool.and_eq_true] at h
  obtain ⟨⟨h1, h2⟩, h3⟩ := h
  refine ⟨?_, ?_, h3⟩
  · intro dc hdc
    rw [hdc] at h1
    simpa using h1
  · intro fc hfc hne
    rw [hfc] at h2
    simpa [hne] using h2

/-- Claim C1: every item of every outfit returned by `compose` is acceptable:
not disliked, in the favorites allow-list when that list is non-empty, and
undertone-friendly. -/
theorem compose_items_acceptable (w : List Garment) (p : CustomerProfile)
    (o : Outfit) (g : Garment) (ho : o ∈ mixAndMatch w p) (hg : g ∈ o.items) :
    (∀ dc, p.dislikedColors = some dc → nameNearestColor g.color ∉ dc) ∧
    (∀ fc, p.favoriteColors = some fc → fc ≠ [] → nameNearestColor g.color ∈ fc) ∧
    isColorFriendly g.color p = true := by
  have hacc := (mem_mixAndMatch ho).2
  simp only [acceptableOutfit, List.all_eq_true] at hacc
  exact itemAcceptable_spec (hacc g hg)

/-- Claim C10: every outfit returned by `compose` has 2–4 items drawn from the
wardrobe, starts with a dress or a top, contains no accessory, and has one
of the two strategy shapes. -/
theorem compose_outfit_shape (w : List Garment) (p : CustomerProfile) (o : Outfit)
    (ho : o ∈ mixAndMatch w p) :
    (2 ≤ o.items.length ∧ o.items.length ≤ 4) ∧
    (∀ g ∈ o.items, g ∈ w) ∧
    (∃ g rest, o.items = g :: rest ∧
      (g.type = GarmentType.dress ∨ g.type = GarmentType.top)) ∧
    (∀ g ∈ o.items, g.type ≠ GarmentType.accessory) ∧
    ((∃ d lay sh, o.items = d :: (lay ++ [sh]) ∧ d.type = GarmentType.dress ∧
        sh.type = GarmentType.shoes ∧
        (lay = [] ∨ ∃ l, lay = [l] ∧ l.type = GarmentType.outerwear)) ∨
      (∃ t b lay sho, o.items = t :: b :: (lay ++ sho) ∧ t.type = GarmentType.top ∧
        b.type = GarmentType.bottom ∧
        (lay = [] ∨ ∃ l, lay = [l] ∧ l.type = GarmentType.outerwear) ∧
        (sho = [] ∨ ∃ s, sho = [s] ∧ s.type = GarmentType.shoes))) := by
  rcases List.mem_append.1 (mem_mixAndMatch ho).1 with hA | hB
  · rcases strategyA_shape hA with ⟨d, lay, sh, hit, hd, hsh, hlay⟩
    rcases mem_dressesOf.1 hd with ⟨hdw, hdt⟩
    rcases mem_shoesOf.1 hsh with ⟨hshw, hsht⟩
    have hlayt : ∀ g ∈ lay, g ∈ w ∧ g.type = GarmentType.outerwear := by
      rcases hlay with rfl | ⟨l, rfl, hl⟩
      · intro g hg; simp at hg
      · intro g hg
        simp at hg
        subst hg
        exact mem_outersOf.1 hl
    have hlayl : lay.length ≤ 1 := by
      rcases hlay with rfl | ⟨l, rfl, _⟩ <;> simp
    refine ⟨?_, ?_, ⟨d, lay ++ [sh], hit, Or.inl hdt⟩, ?_, ?_⟩
    · rw [hit]
      simp only [List.length_cons, List.length_append, List.length_nil]
      omega
    · intro g hg
      rw [hit] at hg
      simp at hg
      rcases hg with rfl | hg | rfl
      · exact hdw
      · exact (hlayt g hg).1
      · exact hshw
    · intro g hg
      rw [hit] at hg
      simp at hg
      rcases hg with rfl | hg | rfl
      · rw [hdt]; decide
      · rw [(hlayt g hg).2]; decide
      · rw [hsht]; decide
    · refine Or.inl ⟨d, lay, sh, hit, hdt, hsht, ?_⟩
      rcases hlay with rfl | ⟨l, rfl, hl⟩
      · exact Or.inl rfl
      · exact Or.inr ⟨l, rfl, (mem_outersOf.1 hl).2⟩
  · rcases strategyB_shape hB with ⟨t, b, lay, sho, hit, ht, hb, hlay, hsho⟩
    rcases mem_topsOf.1 ht with ⟨htw, htt⟩
    rcases mem_bottomsOf.1 hb with ⟨hbw, hbt⟩
    have hlayt : ∀ g ∈ lay, g ∈ w ∧ g.type = GarmentType.outerwear := by
      rcases hlay with rfl | ⟨l, rfl, hl⟩
      · intro g hg; simp at hg
      · intro g hg
        simp at hg
        subst hg
        exact mem_outersOf.1 hl
    have hshot : ∀ g ∈ sho, g ∈ w ∧ g.type = GarmentType.shoes := by
      rcases hsho with rfl | ⟨s, rfl, hs⟩
      · intro g hg; simp at hg
      · intro g hg
        simp at hg
        subst hg
        exact mem_shoesOf.1 hs
    have hlayl : lay.length ≤ 1 := by
      rcases hlay with rfl | ⟨l, rfl, _⟩ <;> simp
    have hshol : sho.length ≤ 1 := by
      rcases hsho with rfl | ⟨s, rfl, _⟩ <;> simp
    refine ⟨?_, ?_, ⟨t, b :: (lay ++ sho), hit, Or.inr htt⟩, ?_, ?_⟩
    · rw [hit]
      simp only [List.length_cons, List.length_append, List.length_nil]
      omega
    · intro g hg
      rw [hit] at hg
      simp at hg
      rcases hg with rfl | rfl | hg | hg
      · exact htw
      · exact hbw
      · exact (hlayt g hg).1
      · exact (hshot g hg).1
    · intro g hg
      rw [hit] at hg
      simp at hg
      rcases hg with rfl | rfl | hg | hg
      · rw [htt]; decide
      · rw [hbt]; decide
      · rw [(hlayt g hg).2]; decide
      · rw [(hshot g hg).2]; decide
    · refine Or.inr ⟨t, b, lay, sho, hit, htt, hbt, ?_, ?_⟩
      · rcases hlay with rfl | ⟨l, rfl, hl⟩
        · exact Or.inl rfl
        · exact Or.inr ⟨l, rfl, (mem_outersOf.1 hl).2⟩
      · rcases hsho with rfl | ⟨s, rfl, hs⟩
        · exact Or.inl rfl
        · exact Or.inr ⟨s, rfl, (mem_shoesOf.1 hs).2⟩

/-! ## Deduplication invariants -/

/-- Keys of survivors of the dedup loop were not previously seen. -/
theorem dedupByKey_not_seen : ∀ (l : List Outfit) (seen : List String) (o : Outfit),
    o ∈ dedupByKey l seen → outfitKey o ∉ seen := by
  intro l
  induction l with
  | nil => intro seen o ho; simp [dedupByKey] at ho
  | cons c rest ih =>
    intro seen o ho
    unfold dedupByKey at ho
    by_cases h : outfitKey c ∈ seen
    · rw [if_pos h] at ho
      exact ih seen o ho
    · rw [if_neg h] at ho
      rcases List.mem_cons.1 ho with rfl | ho
      · exact h
      · intro hmem
        exact ih _ o ho (List.mem_cons_of_mem _ hmem)

/-- The dedup loop leaves pairwise-distinct keys. -/
theorem dedupByKey_pairwise_key : ∀ (l : List Outfit) (seen : List String),
    (dedupByKey l seen).Pairwise (fun a b => outfitKey a ≠ outfitKey b) := by
  intro l
  induction l with
  | nil => intro seen; simp [dedupByKey]
  | cons c rest ih =>
    intro seen
    unfold dedupByKey
    by_cases h : outfitKey c ∈ seen
    · rw [if_pos h]
      exact ih seen
    · rw [if_neg h]
      refine List.Pairwise.cons ?_ (ih _)
      intro b hb heq
      exact dedupByKey_not_seen _ _ b hb (heq ▸ List.mem_cons_self _ _)

/-- In a wardrobe with pairwise-distinct ids, garments of different types
have different ids. -/
theorem id_ne_of_type_ne {w : List Garment} (hw : (w.map fun g => g.id).Nodup)
    {a b : Garment} (ha : a ∈ w) (hb : b ∈ w) (hne : a.type ≠ b.type) :
    a.id ≠ b.id := by
  intro h
  exact hne (congrArg Garment.type (List.inj_on_of_nodup_map hw ha hb h))

/-- In a wardrobe with pairwise-distinct ids, every generated candidate has
pairwise-distinct item ids (its items come from disjoint type partitions). -/
theorem combo_items_nodup {w : List Garment} {p : CustomerProfile} {o : Outfit}
    (hw : (w.map fun g => g.id).Nodup)
    (h : o ∈ strategyA w ++ strategyB w p) :
    (o.items.map fun g => g.id).Nodup := by
  rcases List.mem_append.1 h with hA | hB
  · rcases strategyA_shape hA with ⟨d, lay, sh, hit, hd, hsh, hlay⟩
    rcases mem_dressesOf.1 hd with ⟨hdw, hdt⟩
    rcases mem_shoesOf.1 hsh with ⟨hshw, hsht⟩
    rcases hlay with rfl | ⟨l, rfl, hl⟩
    · rw [hit]
      simp
      exact id_ne_of_type_ne hw hdw hshw (by rw [hdt, hsht]; decide)
    · rcases mem_outersOf.1 hl with ⟨hlw, hlt⟩
      rw [hit]
      simp
      refine ⟨⟨?_, ?_⟩, ?_⟩
      · exact id_ne_of_type_ne hw hdw hlw (by rw [hdt, hlt]; decide)
      · exact id_ne_of_type_ne hw hdw hshw (by rw [hdt, hsht]; decide)
      · exact id_ne_of_type_ne hw hlw hshw (by rw [hlt, hsht]; decide)
  · rcases strategyB_shape hB with ⟨t, b, lay, sho, hit, ht, hb, hlay, hsho⟩
    rcases mem_topsOf.1 ht with ⟨htw, htt⟩
    rcases mem_bottomsOf.1 hb with ⟨hbw, hbt⟩
    rcases hlay with rfl | ⟨l, rfl, hl⟩ <;> rcases hsho with rfl | ⟨s, rfl, hs⟩
    · rw [hit]
      simp
      exact id_ne_of_type_ne hw htw hbw (by rw [htt, hbt]; decide)
    · rcases mem_shoesOf.1 hs with ⟨hsw, hst⟩
      rw [hit]
      simp
      refine ⟨⟨?_, ?_⟩, ?_⟩
      · exact id_ne_of_type_ne hw htw hbw (by rw [htt, hbt]; decide)
      · exact id_ne_of_type_ne hw htw hsw (by rw [htt, hst]; decide)
      · exact id_ne_of_type_ne hw hbw hsw (by rw [hbt, hst]; decide)
    · rcases mem_outersOf.1 hl with ⟨hlw, hlt⟩
      rw [hit]
      simp
      refine ⟨⟨?_, ?_⟩, ?_⟩
      · exact id_ne_of_type_ne hw htw hbw (by rw [htt, hbt]; decide)
      · exact id_ne_of_type_ne hw htw hlw (by rw [htt, hlt]; decide)
      · exact id_ne_of_type_ne hw hbw hlw (by rw [hbt, hlt]; decide)
    · rcases mem_outersOf.1 hl with ⟨hlw, hlt⟩
      rcases mem_shoesOf.1 hs with ⟨hsw, hst⟩
      rw [hit]
      simp
      refine ⟨⟨?_, ?_, ?_⟩, ⟨?_, ?_⟩, ?_⟩
      · exact id_ne_of_type_ne hw htw hbw (by rw [htt, hbt]; decide)
      · exact id_ne_of_type_ne hw htw hlw (by rw [htt, hlt]; decide)
      · exact id_ne_of_type_ne hw htw hsw (by rw [htt, hst]; decide)
      · exact id_ne_of_type_ne hw hbw hlw (by rw [hbt, hlt]; decide)
      · exact id_ne_of_type_ne hw hbw hsw (by rw [hbt, hst]; decide)
      · exact id_ne_of_type_ne hw hlw hsw (by rw [hlt, hst]; decide)

/-- Two outfits with duplicate-free item-id lists and the same id-*set* get
the same dedup key: sorting duplicate-free permutations of one another by a
linear order yields the same list, hence the same joined string. -/
theorem outfitKey_eq_of_idSet_eq {o₁ o₂ : Outfit}
    (h₁ : (o₁.items.map fun g => g.id).Nodup)
    (h₂ : (o₂.items.map fun g => g.id).Nodup)
    (h : idSet o₁ = idSet o₂) : outfitKey o₁ = outfitKey o₂ := by
  unfold idSet at h
  have hperm : (o₁.items.map fun g => g.id).Perm (o₂.items.map fun g => g.id) :=
    List.perm_of_nodup_nodup_toFinset_eq h₁ h₂ h
  unfold outfitKey
  congr 1
  refine List.eq_of_perm_of_sorted ?_ (List.sorted_insertionSort _ _)
    (List.sorted_insertionSort _ _)
  exact ((List.perm_insertionSort _ _).trans hperm).trans
    (List.perm_insertionSort _ _).symm

/-- Main dedup invariant: with wardrobe-wide unique ids, no two outfits in
the composer's output share an id-set. -/
theorem mixAndMatch_pairwise_idSet {w : List Garment} {p : CustomerProfile}
    (hw : (w.map fun g => g.id).Nodup) :
    (mixAndMatch w p).Pairwise (fun o₁ o₂ => idSet o₁ ≠ idSet o₂) := by
  have hkey : (mixAndMatch w p).Pairwise (fun a b => outfitKey a ≠ outfitKey b) := by
    simp only [mixAndMatch]
    exact List.Pairwise.sublist (List.take_sublist _ _) (dedupByKey_pairwise_key _ _)
  refine hkey.imp_of_mem ?_
  intro a b ha hb hne heq
  exact hne (outfitKey_eq_of_idSet_eq
    (combo_items_nodup hw (mem_mixAndMatch ha).1)
    (combo_items_nodup hw (mem_mixAndMatch hb).1) heq)

/-- Claim C3: with wardrobe-wide unique ids, `compose` surfaces no two outfits
with the same set of item ids; its keys (sorted ids joined by "-") are
pairwise distinct; and the output is an order-preserving selection (a
sublist) of the filtered candidate list, i.e. only first occurrences
survive, in their original relative order. -/
theorem compose_no_duplicate_idsets (w : List Garment) (p : CustomerProfile)
    (hw : (w.map fun g => g.id).Nodup) :
    (mixAndMatch w p).Pairwise (fun o₁ o₂ => idSet o₁ ≠ idSet o₂) ∧
    (mixAndMatch w p).Pairwise (fun o₁ o₂ => outfitKey o₁ ≠ outfitKey o₂) ∧
    List.Sublist (mixAndMatch w p)
      ((strategyA w ++ strategyB w p).filter (acceptableOutfit p)) := by
  refine ⟨mixAndMatch_pairwise_idSet hw, ?_, ?_⟩
  · simp only [mixAndMatch]
    exact List.Pairwise.sublist (List.take_sublist _ _) (dedupByKey_pairwise_key _ _)
  · simp only [mixAndMatch]
    exact (List.take_sublist _ _).trans (dedupByKey_sublist _ _)

/-- Claim C7: two tops and two bottoms, all colors pairwise more than distance 80
apart, unconstrained profile: `compose` returns at most 4 (in fact at most
2 × 2) distinct outfits, respects the cap, has pairwise-distinct id-sets,
and does return at least one outfit. -/
theorem compose_two_tops_two_bottoms (t1 t2 b1 b2 : Garment) (p : CustomerProfile)
    (ht1 : t1.type = GarmentType.top) (ht2 : t2.type = GarmentType.top)
    (hb1 : b1.type = GarmentType.bottom) (hb2 : b2.type = GarmentType.bottom)
    (hid : ([t1, t2, b1, b2].map fun g => g.id).Nodup)
    (dtt : colorDist2 t1.color t2.color > 6400)
    (d11 : colorDist2 b1.color t1.color > 6400)
    (d21 : colorDist2 b2.color t1.color > 6400)
    (d12 : colorDist2 b1.color t2.color > 6400)
    (d22 : colorDist2 b2.color t2.color > 6400)
    (dbb : colorDist2 b1.color b2.color > 6400)
    (hdis : p.dislikedColors = none) (hfav : p.favoriteColors = none)
    (hut : p.skinUndertone = none) :
    (mixAndMatch [t1, t2, b1, b2] p).length ≤ 4 ∧
    (mixAndMatch [t1, t2, b1, b2] p).Pairwise (fun o₁ o₂ => idSet o₁ ≠ idSet o₂) ∧
    (mixAndMatch [t1, t2, b1, b2] p).length ≤ 12 ∧
    mixAndMatch [t1, t2, b1, b2] p ≠ [] := by
  have htops : topsOf [t1, t2, b1, b2] = [t1, t2] := by
    simp [topsOf, List.filter_cons, ht1, ht2, hb1, hb2]
  have hbots : bottomsOf [t1, t2, b1, b2] = [b1, b2] := by
    simp [bottomsOf, List.filter_cons, ht1, ht2, hb1, hb2]
  have hdr : dressesOf [t1, t2, b1, b2] = [] := by
    simp [dressesOf, List.filter_cons, ht1, ht2, hb1, hb2]
  have hout : outersOf [t1, t2, b1, b2] = [] := by
    simp [outersOf, List.filter_cons, ht1, ht2, hb1, hb2]
  have hsho : shoesOf [t1, t2, b1, b2] = [] := by
    simp [shoesOf, List.filter_cons, ht1, ht2, hb1, hb2]
  have hsA : strategyA [t1, t2, b1, b2] = [] := by
    simp [strategyA, hdr]
  have hlen : (mixAndMatch [t1, t2, b1, b2] p).length ≤ 2 := by
    have h1 : (mixAndMatch [t1, t2, b1, b2] p).length ≤
        (strategyA [t1, t2, b1, b2] ++ strategyB [t1, t2, b1, b2] p).length := by
      simp only [mixAndMatch]
      exact le_trans
        (((List.take_sublist _ _).trans (dedupByKey_sublist _ _)).length_le)
        (List.length_filter_le _ _)
    have h2 : (strategyB [t1, t2, b1, b2] p).length ≤ 2 := by
      unfold strategyB
      rw [htops]
      exact le_trans (List.length_filterMap_le _ _) (by simp)
    rw [hsA] at h1
    simpa using le_trans h1 h2
  obtain ⟨ratl, ho1⟩ : ∃ ratl,
      topOutfit (bottomsOf [t1, t2, b1, b2]) (outersOf [t1, t2, b1, b2])
        (shoesOf [t1, t2, b1, b2]) (buildRules p) t1 = some ⟨[t1, b1], ratl⟩ := by
    unfold topOutfit
    rw [hbots, hout, hsho, List.find?_cons_of_pos _ (by simpa using d11)]
    exact ⟨_, rfl⟩
  have hsB : strategyB [t1, t2, b1, b2] p = Outfit.mk [t1, b1] ratl ::
      List.filterMap (topOutfit (bottomsOf [t1, t2, b1, b2]) (outersOf [t1, t2, b1, b2])
        (shoesOf [t1, t2, b1, b2]) (buildRules p)) [t2] := by
    unfold strategyB
    rw [htops, show List.take 8 [t1, t2] = [t1, t2] from rfl]
    exact List.filterMap_cons_some ho1
  have hacc : acceptableOutfit p ⟨[t1, b1], ratl⟩ = true := by
    simp [acceptableOutfit, itemAcceptable, isColorFriendly, hdis, hfav, hut]
  have hne : mixAndMatch [t1, t2, b1, b2] p ≠ [] := by
    simp only [mixAndMatch, hsA, hsB, List.nil_append]
    rw [List.filter_cons_of_pos hacc]
    unfold dedupByKey
    rw [if_neg (List.not_mem_nil _)]
    simp
  refine ⟨le_trans hlen (by omega), mixAndMatch_pairwise_idSet hid, ?_, hne⟩
  simp only [mixAndMatch]
  exact List.length_take_le 12 _

/-! ## Nearest-color correctness -/

/-- Scan invariant of `pickNearest`: either no entry strictly beats the
accumulator, which then survives, or the scan returns the entry at the
*first* index achieving the minimum distance (strictly below the
accumulator's). -/
theorem pickNearest_spec (hex : Rgb) :
    ∀ (l : List (Rgb × String)) (bn : String) (bd : Nat),
      (pickNearest hex l (bn, bd) = (bn, bd) ∧
        ∀ j : Fin l.length, bd ≤ colorDist2 hex (l.get j).1) ∨
      (∃ i : Fin l.length,
        pickNearest hex l (bn, bd) = ((l.get i).2, colorDist2 hex (l.get i).1) ∧
        colorDist2 hex (l.get i).1 < bd ∧
        (∀ j : Fin l.length, colorDist2 hex (l.get i).1 ≤ colorDist2 hex (l.get j).1) ∧
        (∀ j : Fin l.length, (j : ℕ) < (i : ℕ) →
          colorDist2 hex (l.get i).1 < colorDist2 hex (l.get j).1)) := by
  intro l
  induction l with
  | nil =>
    intro bn bd
    refine Or.inl ⟨rfl, fun j => absurd j.isLt (by simp)⟩
  | cons hd rest ih =>
    intro bn bd
    obtain ⟨k, n⟩ := hd
    by_cases hlt : colorDist2 hex k < bd
    · have hp : pickNearest hex ((k, n) :: rest) (bn, bd) =
          pickNearest hex rest (n, colorDist2 hex k) := by
        simp [pickNearest, hlt]
      rcases ih n (colorDist2 hex k) with ⟨heq, hall⟩ | ⟨i, heq, hlt2, hmin, hstrict⟩
      · refine Or.inr ⟨⟨0, by simp⟩, ?_, ?_, ?_, ?_⟩
        · rw [hp, heq]; rfl
        · exact hlt
        · intro j
          rcases j with ⟨jv, hj⟩
          cases jv with
          | zero => exact le_refl _
          | succ m =>
            have hm : m < rest.length := by simpa using hj
            simpa [List.get_cons_succ] using hall ⟨m, hm⟩
        · intro j hj
          exact absurd hj (by simp)
      · refine Or.inr ⟨⟨(i : ℕ) + 1, by simpa using i.isLt⟩, ?_, ?_, ?_, ?_⟩
        · rw [hp, heq]
          congr 1
        · exact lt_trans hlt2 hlt
        · intro j
          rcases j with ⟨jv, hj⟩
          cases jv with
          | zero =>
            simp only [List.get_cons_zero, List.get_cons_succ]
            calc colorDist2 hex (rest.get ⟨(i : ℕ), _⟩).1
                ≤ colorDist2 hex (rest.get i).1 := by rw [Fin.eta]
              _ ≤ colorDist2 hex k := le_of_lt hlt2
          | succ m =>
            have hm : m < rest.length := by simpa using hj
            simp only [List.get_cons_succ]
            calc colorDist2 hex (rest.get ⟨(i : ℕ), _⟩).1
                = colorDist2 hex (rest.get i).1 := by rw [Fin.eta]
              _ ≤ colorDist2 hex (rest.get ⟨m, hm⟩).1 := hmin ⟨m, hm⟩
        · intro j hj
          rcases j with ⟨jv, hjl⟩
          cases jv with
          | zero =>
            simp only [List.get_cons_zero, List.get_cons_succ]
            calc colorDist2 hex (rest.get ⟨(i : ℕ), _⟩).1
                = colorDist2 hex (rest.get i).1 := by rw [Fin.eta]
              _ < colorDist2 hex k := hlt2
          | succ m =>
            have hm : m < rest.length := by simpa using hjl
            have hmi : m < (i : ℕ) := by simpa using hj
            simp only [List.get_cons_succ]
            calc colorDist2 hex (rest.get ⟨(i : ℕ), _⟩).1
                = colorDist2 hex (rest.get i).1 := by rw [Fin.eta]
              _ < colorDist2 hex (rest.get ⟨m, hm⟩).1 := hstrict ⟨m, hm⟩ hmi
    · have hp : pickNearest hex ((k, n) :: rest) (bn, bd) =
          pickNearest hex rest (bn, bd) := by
        simp [pickNearest, hlt]
      rcases ih bn bd with ⟨heq, hall⟩ | ⟨i, heq, hlt2, hmin, hstrict⟩
      · refine Or.inl ⟨by rw [hp, heq], ?_⟩
        intro j
        rcases j with ⟨jv, hj⟩
        cases jv with
        | zero => simpa [List.get_cons_zero] using le_of_not_lt hlt
        | succ m =>
          have hm : m < rest.length := by simpa using hj
          simpa [List.get_cons_succ] using hall ⟨m, hm⟩
      · refine Or.inr ⟨⟨(i : ℕ) + 1, by simpa using i.isLt⟩, ?_, ?_, ?_, ?_⟩
        · rw [hp, heq]
          congr 1
        · exact hlt2
        · intro j
          rcases j with ⟨jv, hj⟩
          cases jv with
          | zero =>
            simp only [List.get_cons_zero, List.get_cons_succ]
            calc colorDist2 hex (rest.get ⟨(i : ℕ), _⟩).1
                = colorDist2 hex (rest.get i).1 := by rw [Fin.eta]
              _ ≤ bd := le_of_lt hlt2
              _ ≤ colorDist2 hex k := le_of_not_lt hlt
          | succ m =>
            have hm : m < rest.length := by simpa using hj
            simp only [List.get_cons_succ]
            calc colorDist2 hex (rest.get ⟨(i : ℕ), _⟩).1
                = colorDist2 hex (rest.get i).1 := by rw [Fin.eta]
              _ ≤ colorDist2 hex (rest.get ⟨m, hm⟩).1 := hmin ⟨m, hm⟩
        · intro j hj
          rcases j with ⟨jv, hjl⟩
          cases jv with
          | zero =>
            simp only [List.get_cons_zero, List.get_cons_succ]
            calc colorDist2 hex (rest.get ⟨(i : ℕ), _⟩).1
                = colorDist2 hex (rest.get i).1 := by rw [Fin.eta]
              _ < bd := hlt2
              _ ≤ colorDist2 hex k := le_of_not_lt hlt
          | succ m =>
            have hm : m < rest.length := by simpa using hjl
            have hmi : m < (i : ℕ) := by simpa using hj
            simp only [List.get_cons_succ]
            calc colorDist2 hex (rest.get ⟨(i : ℕ), _⟩).1
                = colorDist2 hex (rest.get i).1 := by rw [Fin.eta]
              _ < colorDist2 hex (rest.get ⟨m, hm⟩).1 := hstrict ⟨m, hm⟩ hmi

/-- The seeded scan (first entry as initial best, as forced by
`bestD = Infinity`) returns the first index of the whole palette achieving
the minimal distance. -/
theorem pickSeed_spec (hex k₀ : Rgb) (n₀ : String) (rest : List (Rgb × String)) :
    ∃ i : Fin ((k₀, n₀) :: rest).length,
      (pickNearest hex rest (n₀, colorDist2 hex k₀)).1 = (((k₀, n₀) :: rest).get i).2 ∧
      (∀ j : Fin ((k₀, n₀) :: rest).length,
        colorDist2 hex (((k₀, n₀) :: rest).get i).1 ≤
          colorDist2 hex (((k₀, n₀) :: rest).get j).1) ∧
      (∀ j : Fin ((k₀, n₀) :: rest).length, (j : ℕ) < (i : ℕ) →
        colorDist2 hex (((k₀, n₀) :: rest).get i).1 <
          colorDist2 hex (((k₀, n₀) :: rest).get j).1) := by
  rcases pickNearest_spec hex rest n₀ (colorDist2 hex k₀) with
    ⟨heq, hall⟩ | ⟨i, heq, hlt, hmin, hstrict⟩
  · refine ⟨⟨0, by simp⟩, by rw [heq]; rfl, ?_, ?_⟩
    · intro j
      rcases j with ⟨jv, hj⟩
      cases jv with
      | zero => exact le_refl _
      | succ m =>
        have hm : m < rest.length := by simpa using hj
        simpa using hall ⟨m, hm⟩
    · intro j hj
      exact absurd hj (by simp)
  · refine ⟨⟨(i : ℕ) + 1, by simpa using i.isLt⟩, by rw [heq]; congr 1, ?_, ?_⟩
    · intro j
      rcases j with ⟨jv, hj⟩
      cases jv with
      | zero =>
        simp only [List.get_cons_zero, List.get_cons_succ]
        calc colorDist2 hex (rest.get ⟨(i : ℕ), _⟩).1
            = colorDist2 hex (rest.get i).1 := by rw [Fin.eta]
          _ ≤ colorDist2 hex k₀ := le_of_lt hlt
      | succ m =>
        have hm : m < rest.length := by simpa using hj
        simp only [List.get_cons_succ]
        calc colorDist2 hex (rest.get ⟨(i : ℕ), _⟩).1
            = colorDist2 hex (rest.get i).1 := by rw [Fin.eta]
          _ ≤ colorDist2 hex (rest.get ⟨m, hm⟩).1 := hmin ⟨m, hm⟩
    · intro j hj
      rcases j with ⟨jv, hjl⟩
      cases jv with
      | zero =>
        simp only [List.get_cons_zero, List.get_cons_succ]
        calc colorDist2 hex (rest.get ⟨(i : ℕ), _⟩).1
            = colorDist2 hex (rest.get i).1 := by rw [Fin.eta]
          _ < colorDist2 hex k₀ := hlt
      | succ m =>
        have hm : m < rest.length := by simpa using hjl
        have hmi : m < (i : ℕ) := by simpa using hj
        simp only [List.get_cons_succ]
        calc colorDist2 hex (rest.get ⟨(i : ℕ), _⟩).1
            = colorDist2 hex (rest.get i).1 := by rw [Fin.eta]
          _ < colorDist2 hex (rest.get ⟨m, hm⟩).1 := hstrict ⟨m, hm⟩ hmi

/-- Claim C4: `nameNearestColor` returns the name of a palette entry whose
Euclidean RGB distance (the square root of `colorDist2`) to the input is
minimal over the whole fixed palette, ties broken in favor of the entry
occurring first in the palette order; for any input it returns one of the
fixed palette names (never a null/absent value). -/
theorem nameNearestColor_nearest (hex : Rgb) :
    ∃ i : Fin NAMED_COLORS.length,
      nameNearestColor hex = (NAMED_COLORS.get i).2 ∧
      (∀ j : Fin NAMED_COLORS.length,
        Real.sqrt (colorDist2 hex (NAMED_COLORS.get i).1) ≤
          Real.sqrt (colorDist2 hex (NAMED_COLORS.get j).1)) ∧
      (∀ j : Fin NAMED_COLORS.length, (j : ℕ) < (i : ℕ) →
        Real.sqrt (colorDist2 hex (NAMED_COLORS.get i).1) <
          Real.sqrt (colorDist2 hex (NAMED_COLORS.get j).1)) ∧
      nameNearestColor hex ∈ NAMED_COLORS.map Prod.snd := by
  obtain ⟨i, h1, h2, h3⟩ := pickSeed_spec hex ⟨0, 0, 0⟩ "black" NAMED_COLORS.tail
  refine ⟨i, h1, ?_, ?_, ?_⟩
  · intro j
    exact Real.sqrt_le_sqrt (by exact_mod_cast h2 j)
  · intro j hj
    exact Real.sqrt_lt_sqrt (by positivity) (by exact_mod_cast h3 j hj)
  · have h1' : nameNearestColor hex =
        (((⟨0, 0, 0⟩, "black") :: NAMED_COLORS.tail).get i).2 := h1
    rw [h1']
    exact List.mem_map.2 ⟨_, List.get_mem _ (i : ℕ) i.isLt, rfl⟩

/-! ## First-match semantics of the pairing searches -/

/-- `List.find?` with a decidable predicate returns exactly the first
element satisfying it. -/
theorem find?_eq_some_iff_FirstSuch {α : Type} {q : α → Prop} [DecidablePred q]
    {l : List α} {x : α} :
    l.find? (fun a => decide (q a)) = some x ↔ FirstSuch l q x := by
  rw [List.find?_eq_some]
  constructor
  · rintro ⟨hx, as, bs, heq, hall⟩
    exact ⟨as, bs, heq, of_decide_eq_true hx, fun y hy => by simpa using hall y hy⟩
  · rintro ⟨l₁, l₂, heq, hq, hall⟩
    exact ⟨decide_eq_true hq, l₁, l₂, heq, fun a ha => by simpa using hall a ha⟩

/-- Claim C5: in Strategy B, each of the first 8 tops yields at most one
candidate, whose bottom is the *first* bottom at squared distance above
6400 (none ⇒ no outfit for this top), whose optional outerwear is the first
at squared distance above 8100 from the top, and whose optional shoe is the
first at squared distance above 3600 from the chosen *bottom*. -/
theorem strategyB_first_match (w : List Garment) (p : CustomerProfile) (t : Garment)
    (ht : t ∈ (topsOf w).take 8) :
    ((∀ b ∈ bottomsOf w, ¬ colorDist2 b.color t.color > 6400) →
      topOutfit (bottomsOf w) (outersOf w) (shoesOf w) (buildRules p) t = none) ∧
    (∀ b, FirstSuch (bottomsOf w) (fun x => colorDist2 x.color t.color > 6400) b →
      ∃ lay sho ratl,
        topOutfit (bottomsOf w) (outersOf w) (shoesOf w) (buildRules p) t =
          some ⟨t :: b :: (lay ++ sho), ratl⟩ ∧
        ((∀ x ∈ outersOf w, ¬ colorDist2 x.color t.color > 8100) → lay = []) ∧
        (∀ x, FirstSuch (outersOf w) (fun y => colorDist2 y.color t.color > 8100) x →
          lay = [x]) ∧
        ((∀ x ∈ shoesOf w, ¬ colorDist2 x.color b.color > 3600) → sho = []) ∧
        (∀ x, FirstSuch (shoesOf w) (fun y => colorDist2 y.color b.color > 3600) x →
          sho = [x])) ∧
    strategyB w p = ((topsOf w).take 8).filterMap
      (topOutfit (bottomsOf w) (outersOf w) (shoesOf w) (buildRules p)) ∧
    (strategyB w p).length ≤ 8 := by
  refine ⟨fun h => topOutfit_eq_none h, ?_, rfl, ?_⟩
  · intro b hb
    have hfb : (bottomsOf w).find? (fun x => decide (colorDist2 x.color t.color > 6400)) =
        some b := find?_eq_some_iff_FirstSuch.2 hb
    unfold topOutfit
    rw [hfb]
    refine ⟨_, _, _, rfl, ?_, ?_, ?_, ?_⟩
    · intro h
      rw [List.find?_eq_none.2 (fun x hx => by simpa using h x hx)]
      rfl
    · intro x hx
      rw [find?_eq_some_iff_FirstSuch.2 hx]
      rfl
    · intro h
      rw [List.find?_eq_none.2 (fun x hx => by simpa using h x hx)]
      rfl
    · intro x hx
      rw [find?_eq_some_iff_FirstSuch.2 hx]
      rfl
  · unfold strategyB
    exact le_trans (List.length_filterMap_le _ _) (List.length_take_le _ _)

/-! ## Noninterference of the stored colorName field -/

/-- Stripping leaves the engine-relevant fields untouched. -/
@[simp] theorem stripColorName_color (g : Garment) : (stripColorName g).color = g.color := rfl

/-- Stripping leaves the type field untouched. -/
@[simp] theorem stripColorName_type (g : Garment) : (stripColorName g).type = g.type := rfl

/-- Stripping leaves the id field untouched. -/
@[simp] theorem stripColorName_id (g : Garment) : (stripColorName g).id = g.id := rfl

/-- Strip the colorName field on every item of an outfit. -/
def outfitStrip (o : Outfit) : Outfit :=
  ⟨o.items.map stripColorName, o.rationale⟩

/-- `find?` commutes with stripping when the predicate ignores colorName. -/
theorem find?_strip (l : List Garment) (q : Garment → Bool)
    (hq : ∀ g, q (stripColorName g) = q g) :
    (l.map stripColorName).find? q = (l.find? q).map stripColorName := by
  induction l with
  | nil => rfl
  | cons a l ih =>
    simp only [List.map_cons, List.find?_cons, hq a]
    cases hpa : q a
    · simpa using ih
    · rfl

/-- The type partitions commute with stripping. -/
theorem topsOf_strip (w : List Garment) :
    topsOf (w.map stripColorName) = (topsOf w).map stripColorName := by
  unfold topsOf
  rw [List.filter_map]
  rfl

/-- Bottoms partition commutes with stripping. -/
theorem bottomsOf_strip (w : List Garment) :
    bottomsOf (w.map stripColorName) = (bottomsOf w).map stripColorName := by
  unfold bottomsOf
  rw [List.filter_map]
  rfl

/-- Dresses partition commutes with stripping. -/
theorem dressesOf_strip (w : List Garment) :
    dressesOf (w.map stripColorName) = (dressesOf w).map stripColorName := by
  unfold dressesOf
  rw [List.filter_map]
  rfl

/-- Outerwear partition commutes with stripping. -/
theorem outersOf_strip (w : List Garment) :
    outersOf (w.map stripColorName) = (outersOf w).map stripColorName := by
  unfold outersOf
  rw [List.filter_map]
  rfl

/-- Shoes partition commutes with stripping. -/
theorem shoesOf_strip (w : List Garment) :
    shoesOf (w.map stripColorName) = (shoesOf w).map stripColorName := by
  unfold shoesOf
  rw [List.filter_map]
  rfl

/-- `find?` with a color-distance predicate commutes with stripping. -/
theorem find?_strip_dist (l : List Garment) (c : Rgb) (n : Nat) :
    (l.map stripColorName).find? (fun g => decide (colorDist2 g.color c > n)) =
      (l.find? (fun g => decide (colorDist2 g.color c > n))).map stripColorName :=
  find?_strip l _ (fun _ => rfl)

/-- Strategy A's per-dress candidate commutes with stripping. -/
theorem dressOutfit_strip (outers shoes : List Garment) (d : Garment) :
    dressOutfit (outers.map stripColorName) (shoes.map stripColorName) (stripColorName d) =
      (dressOutfit outers shoes d).map outfitStrip := by
  unfold dressOutfit
  simp only [stripColorName_color]
  rw [find?_strip_dist shoes d.color 3600, find?_strip_dist outers d.color 8100]
  cases hfs : shoes.find? (fun s => decide (colorDist2 s.color d.color > 3600)) with
  | none => rfl
  | some sh =>
    cases hfl : outers.find? (fun o => decide (colorDist2 o.color d.color > 8100)) with
    | none => simp [outfitStrip]
    | some l => simp [outfitStrip]

/-- Strategy B's per-top candidate commutes with stripping. -/
theorem topOutfit_strip (bottoms outers shoes : List Garment) (rules : List FitGoal)
    (t : Garment) :
    topOutfit (bottoms.map stripColorName) (outers.map stripColorName)
      (shoes.map stripColorName) rules (stripColorName t) =
      (topOutfit bottoms outers shoes rules t).map outfitStrip := by
  unfold topOutfit
  simp only [stripColorName_color]
  rw [find?_strip_dist bottoms t.color 6400]
  cases hfb : bottoms.find? (fun b => decide (colorDist2 b.color t.color > 6400)) with
  | none => rfl
  | some b =>
    simp only [Option.map_some']
    rw [find?_strip_dist outers t.color 8100]
    simp only [stripColorName_color]
    rw [find?_strip_dist shoes b.color 3600]
    cases hfl : outers.find? (fun o => decide (colorDist2 o.color t.color > 8100)) with
    | none =>
      cases hfs : shoes.find? (fun s => decide (colorDist2 s.color b.color > 3600)) with
      | none => simp [outfitStrip]
      | some s => simp [outfitStrip]
    | some l =>
      cases hfs : shoes.find? (fun s => decide (colorDist2 s.color b.color > 3600)) with
      | none => simp [outfitStrip]
      | some s => simp [outfitStrip]

/-- Strategy A commutes with stripping. -/
theorem strategyA_strip (w : List Garment) :
    strategyA (w.map stripColorName) = (strategyA w).map outfitStrip := by
  unfold strategyA
  rw [dressesOf_strip, outersOf_strip, shoesOf_strip, ← List.map_take,
    List.filterMap_map, List.map_filterMap]
  congr 1
  funext d
  exact dressOutfit_strip _ _ d

/-- Strategy B commutes with stripping. -/
theorem strategyB_strip (w : List Garment) (p : CustomerProfile) :
    strategyB (w.map stripColorName) p = (strategyB w p).map outfitStrip := by
  unfold strategyB
  rw [topsOf_strip, bottomsOf_strip, outersOf_strip, shoesOf_strip, ← List.map_take,
    List.filterMap_map, List.map_filterMap]
  congr 1
  funext t
  exact topOutfit_strip _ _ _ _ t

/-- Per-item acceptability ignores the colorName field. -/
theorem itemAcceptable_strip (p : CustomerProfile) (g : Garment) :
    itemAcceptable p (stripColorName g) = itemAcceptable p g := rfl

/-- Outfit acceptability ignores the colorName fields. -/
theorem acceptableOutfit_strip (p : CustomerProfile) (o : Outfit) :
    acceptableOutfit p (outfitStrip o) = acceptableOutfit p o := by
  simp only [acceptableOutfit, outfitStrip, List.all_map]
  rfl

/-- The dedup key ignores the colorName fields. -/
theorem outfitKey_strip (o : Outfit) : outfitKey (outfitStrip o) = outfitKey o := by
  simp only [outfitKey, outfitStrip, List.map_map]
  rfl

/-- The dedup loop commutes with stripping. -/
theorem dedupByKey_strip : ∀ (l : List Outfit) (seen : List String),
    dedupByKey (l.map outfitStrip) seen = (dedupByKey l seen).map outfitStrip := by
  intro l
  induction l with
  | nil => intro seen; rfl
  | cons c rest ih =>
    intro seen
    simp only [List.map_cons, dedupByKey, outfitKey_strip]
    by_cases h : outfitKey c ∈ seen
    · rw [if_pos h, if_pos h, ih]
    · rw [if_neg h, if_neg h, List.map_cons, ih]

/-- The whole composer commutes with stripping: outputs on a stripped
wardrobe are the stripped outputs. -/
theorem mixAndMatch_strip (w : List Garment) (p : CustomerProfile) :
    mixAndMatch (w.map stripColorName) p = (mixAndMatch w p).map outfitStrip := by
  simp only [mixAndMatch]
  rw [strategyA_strip, strategyB_strip, ← List.map_append, List.filter_map,
    show (acceptableOutfit p ∘ outfitStrip) = acceptableOutfit p from
      funext fun o => acceptableOutfit_strip p o,
    dedupByKey_strip, List.map_take]

/-- Claim C9: the composer's observable output (item ids in order, rationale
strings) depends on garments only through fields other than `colorName`:
two wardrobes that agree after stripping `colorName` (i.e. are identical
except possibly in that field) produce the same item-id sequences and the
same rationale strings, in the same order. -/
theorem compose_ignores_colorName (w₁ w₂ : List Garment) (p : CustomerProfile)
    (h : w₁.map stripColorName = w₂.map stripColorName) :
    (mixAndMatch w₁ p).map observe = (mixAndMatch w₂ p).map observe := by
  have hobs : ∀ o, observe (outfitStrip o) = observe o := by
    intro o
    simp only [observe, outfitStrip, List.map_map]
    rfl
  calc (mixAndMatch w₁ p).map observe
      = ((mixAndMatch w₁ p).map outfitStrip).map observe := by
        rw [List.map_map]
        exact List.map_congr_left fun o _ => (hobs o).symm
    _ = (mixAndMatch (w₁.map stripColorName) p).map observe := by rw [mixAndMatch_strip]
    _ = (mixAndMatch (w₂.map stripColorName) p).map observe := by rw [h]
    _ = ((mixAndMatch w₂ p).map outfitStrip).map observe := by rw [mixAndMatch_strip]
    _ = (mixAndMatch w₂ p).map observe := by
        rw [List.map_map]
        exact List.map_congr_left fun o _ => hobs o

/-! ## Concrete instances used by the witnesses -/

/-- A black top. -/
def topBlack : Garment := ⟨"t1", "black tee", GarmentType.top, ⟨0, 0, 0⟩, "black", []⟩

/-- A white top. -/
def topWhite : Garment := ⟨"t2", "white tee", GarmentType.top, ⟨255, 255, 255⟩, "white", []⟩

/-- A white bottom. -/
def bottomWhite : Garment :=
  ⟨"b1", "white jeans", GarmentType.bottom, ⟨255, 255, 255⟩, "white", []⟩

/-- A red bottom. -/
def bottomRed : Garment := ⟨"b2", "red skirt", GarmentType.bottom, ⟨192, 57, 43⟩, "red", []⟩

/-- A blue bottom. -/
def bottomBlue : Garment :=
  ⟨"b3", "blue jeans", GarmentType.bottom, ⟨41, 128, 185⟩, "blue", []⟩

/-- A black dress. -/
def dressBlack : Garment := ⟨"d1", "black dress", GarmentType.dress, ⟨0, 0, 0⟩, "black", []⟩

/-- A black shoe. -/
def shoeBlack : Garment := ⟨"s1", "black shoe", GarmentType.shoes, ⟨0, 0, 0⟩, "black", []⟩

/-- The same garment as `topBlack` with a different stored colorName. -/
def topBlackRenamed : Garment := ⟨"t1", "black tee", GarmentType.top, ⟨0, 0, 0⟩, "noir", []⟩

/-- The default (unconstrained) profile. -/
def profile0 : CustomerProfile := {}

/-- The single outfit produced from a black top and a white bottom. -/
def outfitBW : Outfit :=
  ⟨[topBlack, bottomWhite], ["Top (black) with white bottom for contrast"]⟩

/-- Witness for C1 at a concrete wardrobe: the outfit is returned and its
item satisfies the three acceptability conditions. -/
theorem compose_items_acceptable_witness :
    outfitBW ∈ mixAndMatch [topBlack, bottomWhite] profile0 ∧
    topBlack ∈ outfitBW.items ∧
    ((∀ dc, profile0.dislikedColors = some dc →
        nameNearestColor topBlack.color ∉ dc) ∧
      (∀ fc, profile0.favoriteColors = some fc → fc ≠ [] →
        nameNearestColor topBlack.color ∈ fc) ∧
      isColorFriendly topBlack.color profile0 = true) :=
  ⟨by decide, by decide,
    compose_items_acceptable [topBlack, bottomWhite] profile0 outfitBW topBlack
      (by decide) (by decide)⟩

/-- Witness for C3 at a concrete wardrobe with duplicate-free ids. -/
theorem compose_no_duplicate_idsets_witness :
    (([topBlack, bottomWhite].map fun g => g.id).Nodup) ∧
    ((mixAndMatch [topBlack, bottomWhite] profile0).Pairwise
        (fun o₁ o₂ => idSet o₁ ≠ idSet o₂) ∧
      (mixAndMatch [topBlack, bottomWhite] profile0).Pairwise
        (fun o₁ o₂ => outfitKey o₁ ≠ outfitKey o₂) ∧
      List.Sublist (mixAndMatch [topBlack, bottomWhite] profile0)
        ((strategyA [topBlack, bottomWhite] ++ strategyB [topBlack, bottomWhite] profile0).filter
          (acceptableOutfit profile0))) :=
  ⟨by decide, compose_no_duplicate_idsets [topBlack, bottomWhite] profile0 (by decide)⟩

/-- Witness for C5 at a concrete wardrobe and top. -/
theorem strategyB_first_match_witness :
    topBlack ∈ (topsOf [topBlack, bottomWhite]).take 8 ∧
    (((∀ b ∈ bottomsOf [topBlack, bottomWhite],
        ¬ colorDist2 b.color topBlack.color > 6400) →
      topOutfit (bottomsOf [topBlack, bottomWhite]) (outersOf [topBlack, bottomWhite])
        (shoesOf [topBlack, bottomWhite]) (buildRules profile0) topBlack = none) ∧
    (∀ b, FirstSuch (bottomsOf [topBlack, bottomWhite])
        (fun x => colorDist2 x.color topBlack.color > 6400) b →
      ∃ lay sho ratl,
        topOutfit (bottomsOf [topBlack, bottomWhite]) (outersOf [topBlack, bottomWhite])
          (shoesOf [topBlack, bottomWhite]) (buildRules profile0) topBlack =
          some ⟨topBlack :: b :: (lay ++ sho), ratl⟩ ∧
        ((∀ x ∈ outersOf [topBlack, bottomWhite],
            ¬ colorDist2 x.color topBlack.color > 8100) → lay = []) ∧
        (∀ x, FirstSuch (outersOf [topBlack, bottomWhite])
            (fun y => colorDist2 y.color topBlack.color > 8100) x → lay = [x]) ∧
        ((∀ x ∈ shoesOf [topBlack, bottomWhite],
            ¬ colorDist2 x.color b.color > 3600) → sho = []) ∧
        (∀ x, FirstSuch (shoesOf [topBlack, bottomWhite])
            (fun y => colorDist2 y.color b.color > 3600) x → sho = [x])) ∧
    strategyB [topBlack, bottomWhite] profile0 =
      ((topsOf [topBlack, bottomWhite]).take 8).filterMap
        (topOutfit (bottomsOf [topBlack, bottomWhite]) (outersOf [topBlack, bottomWhite])
          (shoesOf [topBlack, bottomWhite]) (buildRules profile0)) ∧
    (strategyB [topBlack, bottomWhite] profile0).length ≤ 8) :=
  ⟨by decide,
    strategyB_first_match [topBlack, bottomWhite] profile0 topBlack (by decide)⟩

/-- Witness for C6: a dress whose only wardrobe has no shoes. -/
theorem dress_without_shoe_discarded_witness :
    dressBlack ∈ (dressesOf [dressBlack]).take 6 ∧
    (∀ s ∈ shoesOf [dressBlack], ¬ colorDist2 s.color dressBlack.color > 3600) ∧
    (dressOutfit (outersOf [dressBlack]) (shoesOf [dressBlack]) dressBlack = none ∧
      ∀ (d' : Garment) (p' : CustomerProfile), d'.type = GarmentType.dress →
        mixAndMatch [d'] p' = []) :=
  ⟨by decide, by decide,
    dress_without_shoe_discarded [dressBlack] profile0 dressBlack (by decide) (by decide)⟩

/-- Witness for C7 at four concrete garments with pairwise distance above 80. -/
theorem compose_two_tops_two_bottoms_witness :
    (([topBlack, topWhite, bottomRed, bottomBlue].map fun g => g.id).Nodup) ∧
    colorDist2 bottomRed.color topBlack.color > 6400 ∧
    colorDist2 bottomBlue.color topWhite.color > 6400 ∧
    ((mixAndMatch [topBlack, topWhite, bottomRed, bottomBlue] profile0).length ≤ 4 ∧
      (mixAndMatch [topBlack, topWhite, bottomRed, bottomBlue] profile0).Pairwise
        (fun o₁ o₂ => idSet o₁ ≠ idSet o₂) ∧
      (mixAndMatch [topBlack, topWhite, bottomRed, bottomBlue] profile0).length ≤ 12 ∧
      mixAndMatch [topBlack, topWhite, bottomRed, bottomBlue] profile0 ≠ []) :=
  ⟨by decide, by decide, by decide,
    compose_two_tops_two_bottoms topBlack topWhite bottomRed bottomBlue profile0
      (by decide) (by decide) (by decide) (by decide) (by decide) (by decide)
      (by decide) (by decide) (by decide) (by decide) (by decide) rfl rfl rfl⟩

/-- Witness for C8: a wardrobe whose dress has no contrasting shoe. -/
theorem compose_empty_on_no_pairing_witness :
    (∀ d ∈ dressesOf [dressBlack, shoeBlack], ∀ s ∈ shoesOf [dressBlack, shoeBlack],
      ¬ colorDist2 s.color d.color > 3600) ∧
    (∀ t ∈ topsOf [dressBlack, shoeBlack], ∀ b ∈ bottomsOf [dressBlack, shoeBlack],
      ¬ colorDist2 b.color t.color > 6400) ∧
    (mixAndMatch [dressBlack, shoeBlack] profile0 = [] ∧
      ∀ p' : CustomerProfile, mixAndMatch [] p' = []) :=
  ⟨by decide, by decide,
    compose_empty_on_no_pairing [dressBlack, shoeBlack] profile0 (by decide) (by decide)⟩

/-- Witness for C9: two singleton wardrobes differing only in colorName. -/
theorem compose_ignores_colorName_witness :
    [topBlack].map stripColorName = [topBlackRenamed].map stripColorName ∧
    (mixAndMatch [topBlack] profile0).map observe =
      (mixAndMatch [topBlackRenamed] profile0).map observe :=
  ⟨by decide, compose_ignores_colorName [topBlack] [topBlackRenamed] profile0 (by decide)⟩

/-- Witness for C10 at a concrete wardrobe. -/
theorem compose_outfit_shape_witness :
    outfitBW ∈ mixAndMatch [topBlack, bottomWhite] profile0 ∧
    ((2 ≤ outfitBW.items.length ∧ outfitBW.items.length ≤ 4) ∧
      (∀ g ∈ outfitBW.items, g ∈ [topBlack, bottomWhite]) ∧
      (∃ g rest, outfitBW.items = g :: rest ∧
        (g.type = GarmentType.dress ∨ g.type = GarmentType.top)) ∧
      (∀ g ∈ outfitBW.items, g.type ≠ GarmentType.accessory) ∧
      ((∃ d lay sh, outfitBW.items = d :: (lay ++ [sh]) ∧ d.type = GarmentType.dress ∧
          sh.type = GarmentType.shoes ∧
          (lay = [] ∨ ∃ l, lay = [l] ∧ l.type = GarmentType.outerwear)) ∨
        (∃ t b lay sho, outfitBW.items = t :: b :: (lay ++ sho) ∧
          t.type = GarmentType.top ∧ b.type = GarmentType.bottom ∧
          (lay = [] ∨ ∃ l, lay = [l] ∧ l.type = GarmentType.outerwear) ∧
          (sho = [] ∨ ∃ s, sho = [s] ∧ s.type = GarmentType.shoes)))) :=
  ⟨by decide,
    compose_outfit_shape [topBlack, bottomWhite] profile0 outfitBW (by decide)⟩
